import Mathlib

/-!
# Verification of the pvsc-microgrid-simulator register / control engine

Shallow embedding of the Rust sources under `src/src-tauri/src`:

* `services/modbus_filter.rs` — per-device control arbitration
  (`ModbusDeviceControlState`, `apply_hr_write_inner`, …);
* `services/modbus_schema.rs` — static register tables;
* `services/modbus_server.rs` — register context, protocol service
  dispatch and `update_context_from_simulation`;
* `services/simulation_engine.rs` — storage-state bookkeeping and the
  calculation-loop spawn guard;
* `domain/simulation.rs` — `SimulationStatus` pause / resume timing.

Modelling conventions: Rust `u16`/`u64` become `Nat` (with explicit
`% 65536` style wrapping where a bit-pattern reinterpretation happens),
`i16`/`i32` become `Int`, and `f64` is modelled by `ℚ` (the arithmetic
used by the code — sums, products, division by constants, `round`,
`clamp` — is exact on the rationals appearing in the claims).
Wall-clock reads (`SystemTime::now`) become an explicit `now : Nat`
argument.  The holding-register write hook (a Rust closure) is modelled
by a presence flag plus an explicit event trace of its invocations.
-/

/-! ## modbus_schema.rs -/

/-- `IrUpdateKey` from modbus_schema.rs: data source for a
simulation-updated input register. -/
inductive IrUpdateKey
  | activePower
  | reactivePower
  | activePowerLow
  | activePowerHigh
  | reactivePowerLow
  | reactivePowerHigh
deriving DecidableEq, Repr

/-- `HrCommandId` from modbus_schema.rs: command triggered by a client
write to a holding register. -/
inductive HrCommandId
  | onOff
  | powerLimitPct
  | powerLimitRaw
  | reactiveCompPct
  | powerFactor
  | setPower
  | other (addr : Nat)
deriving DecidableEq, Repr

/-- `input_register_updates` from modbus_schema.rs. -/
def input_register_updates (device_type : String) : List (Nat × IrUpdateKey) :=
  match device_type with
  | "meter" =>
      [(0, .activePower), (20, .reactivePower)]
  | "static_generator" =>
      [(5030, .activePowerLow), (5031, .activePowerHigh),
       (5032, .reactivePowerLow), (5033, .reactivePowerHigh)]
  | "storage" =>
      [(420, .activePowerLow), (421, .activePowerHigh)]
  | "charger" =>
      [(0, .activePower)]
  | _ => []

/-- `holding_register_commands` from modbus_schema.rs. -/
def holding_register_commands (device_type : String) : List (Nat × HrCommandId) :=
  match device_type with
  | "static_generator" =>
      [(5005, .onOff), (5007, .powerLimitPct), (5038, .powerLimitRaw),
       (5040, .reactiveCompPct), (5041, .powerFactor)]
  | "storage" =>
      [(4, .setPower), (55, .onOff), (5095, .other 5095), (5033, .other 5033)]
  | "charger" =>
      [(0, .powerLimitRaw)]
  | _ => []

/-- `hr_key_to_command_id` from modbus_schema.rs. -/
def hr_key_to_command_id (key : String) : Option HrCommandId :=
  match key with
  | "on_off" => some .onOff
  | "power_limit_pct" => some .powerLimitPct
  | "power_limit_raw" => some .powerLimitRaw
  | "reactive_comp_pct" => some .reactiveCompPct
  | "power_factor" => some .powerFactor
  | "set_power" => some .setPower
  | "grid_mode" => some (.other 5095)
  | "pcs_charge_discharge_state" => some (.other 5033)
  | _ => none

/-- `ir_update_key_to_default_key` from modbus_schema.rs. -/
def ir_update_key_to_default_key (k : IrUpdateKey) : String :=
  match k with
  | .activePower => "active_power"
  | .reactivePower => "reactive_power"
  | .activePowerLow => "active_power_low"
  | .activePowerHigh => "active_power_high"
  | .reactivePowerLow => "reactive_power_low"
  | .reactivePowerHigh => "reactive_power_high"

/-! ## modbus_filter.rs -/

/-- `ModbusPowerInstruction` from modbus_filter.rs: the three mutually
exclusive power directives. -/
inductive ModbusPowerInstruction
  | powerLimitPct
  | powerLimitRaw
  | powerSetpoint
deriving DecidableEq, Repr

/-- `ModbusDeviceControlState` from modbus_filter.rs.  `u16` register
values are `Nat`, the setpoint (`f64` in Rust) is `ℚ`, sequence numbers
(`u64`) are `Nat`. -/
structure ModbusDeviceControlState where
  on_off : Option Nat
  power_limit_pct : Option (Nat × Nat)
  power_limit_raw : Option (Nat × Nat)
  power_setpoint_kw : Option (ℚ × Nat)
  seq : Nat
deriving Repr

/-- `ModbusDeviceControlState::default` from modbus_filter.rs. -/
def ModbusDeviceControlState.default : ModbusDeviceControlState :=
  { on_off := none, power_limit_pct := none, power_limit_raw := none,
    power_setpoint_kw := none, seq := 0 }

/-- `latest_power_instruction` from modbus_filter.rs: scan the three
slots, keeping the one with the strictly highest sequence number. -/
def latest_power_instruction (s : ModbusDeviceControlState) :
    Option ModbusPowerInstruction × Nat :=
  let best : Option ModbusPowerInstruction × Nat := (none, 0)
  let best :=
    match s.power_limit_pct with
    | some (_, seq) =>
        if seq > best.2 then (some .powerLimitPct, seq) else best
    | none => best
  let best :=
    match s.power_limit_raw with
    | some (_, seq) =>
        if seq > best.2 then (some .powerLimitRaw, seq) else best
    | none => best
  let best :=
    match s.power_setpoint_kw with
    | some (_, seq) =>
        if seq > best.2 then (some .powerSetpoint, seq) else best
    | none => best
  best

/-- The JSON property patch pushed toward the external kernel, modelled
as an association list key → numeric value (every value the code ever
inserts is numeric). -/
abbrev PropertyPatch := List (String × ℚ)

/-- `effective_properties` from modbus_filter.rs: off forces
`p_kw = 0`; otherwise report `on_off` plus the latest directive. -/
def effective_properties (s : ModbusDeviceControlState) : PropertyPatch :=
  if s.on_off = some 0 then
    [("on_off", 0), ("p_kw", 0)]
  else
    let on_off := s.on_off.getD 1
    let key := (latest_power_instruction s).1
    ("on_off", (on_off : ℚ)) ::
      (match key with
       | some .powerLimitPct =>
           match s.power_limit_pct with
           | some (v, _) => [("power_limit_pct", (v : ℚ))]
           | none => []
       | some .powerLimitRaw =>
           match s.power_limit_raw with
           | some (v, _) => [("power_limit_raw", (v : ℚ))]
           | none => []
       | some .powerSetpoint =>
           match s.power_setpoint_kw with
           | some (v, _) => [("p_kw", v)]
           | none => []
       | none => [])

/-- `hr_address_to_command` from modbus_filter.rs. -/
def hr_address_to_command (device_type : String) (address : Nat) :
    Option HrCommandId :=
  ((holding_register_commands device_type).find? (fun p => p.1 = address)).map
    Prod.snd

/-- Reinterpret a `u16` bit pattern as a signed 16-bit integer, the
Rust `value as i16` cast (the `% 65536` restricts a general `Nat`
argument to the u16 domain). -/
def toSigned16 (v : Nat) : Int :=
  if v % 65536 < 32768 then ((v % 65536 : Nat) : Int)
  else ((v % 65536 : Nat) : Int) - 65536

/-- `apply_hr_write_inner` from modbus_filter.rs: returns the updated
state (Rust mutates in place) together with the optional returned
patch. -/
def apply_hr_write_inner (s : ModbusDeviceControlState)
    (device_type : String) (cmd : HrCommandId) (value : Nat) :
    ModbusDeviceControlState × Option PropertyPatch :=
  match device_type, cmd with
  | "static_generator", .onOff =>
      let s := { s with on_off := some value }
      (s, some (effective_properties s))
  | "static_generator", .powerLimitPct =>
      let s := { s with seq := s.seq + 1 }
      let s := { s with power_limit_pct := some (value, s.seq) }
      (s, some (effective_properties s))
  | "static_generator", .powerLimitRaw =>
      let s := { s with seq := s.seq + 1 }
      let s := { s with power_limit_raw := some (value, s.seq) }
      (s, some (effective_properties s))
  | "static_generator", .reactiveCompPct =>
      (s, some [("reactive_comp_pct", (value : ℚ))])
  | "static_generator", .powerFactor =>
      (s, some [("power_factor", (value : ℚ))])
  | "storage", .setPower =>
      let s := { s with seq := s.seq + 1 }
      let raw_i16 : Int := toSigned16 value
      let p_kw : ℚ := (raw_i16 : ℚ) / 10
      let s := { s with power_setpoint_kw := some (p_kw, s.seq) }
      (s, some (effective_properties s))
  | "storage", .onOff =>
      let s := { s with on_off := some value }
      (s, some (effective_properties s))
  | "storage", .other 5095 =>
      (s, some [("grid_mode", (value : ℚ))])
  | "storage", .other 5033 =>
      (s, some [("pcs_charge_discharge_state", (value : ℚ))])
  | "charger", .powerLimitRaw =>
      let s := { s with seq := s.seq + 1 }
      let s := { s with power_limit_raw := some (value, s.seq) }
      (s, some (effective_properties s))
  | _, _ => (s, none)

/-- `apply_hr_write_by_key` from modbus_filter.rs. -/
def apply_hr_write_by_key (s : ModbusDeviceControlState)
    (device_type : String) (key : String) (value : Nat) :
    ModbusDeviceControlState × Option PropertyPatch :=
  match hr_key_to_command_id key with
  | some cmd => apply_hr_write_inner s device_type cmd value
  | none => (s, none)

/-- `apply_hr_write_and_effective_properties` from modbus_filter.rs. -/
def apply_hr_write_and_effective_properties (s : ModbusDeviceControlState)
    (device_type : String) (address : Nat) (value : Nat) :
    ModbusDeviceControlState × Option PropertyPatch :=
  match hr_address_to_command device_type address with
  | some cmd => apply_hr_write_inner s device_type cmd value
  | none => (s, none)

/-- The sequence number currently stored in a directive slot (`0` when
the slot is empty, matching the seed of the scan in
`latest_power_instruction`). -/
def slotSeq (s : ModbusDeviceControlState) : ModbusPowerInstruction → Nat
  | .powerLimitPct => (s.power_limit_pct.map Prod.snd).getD 0
  | .powerLimitRaw => (s.power_limit_raw.map Prod.snd).getD 0
  | .powerSetpoint => (s.power_setpoint_kw.map Prod.snd).getD 0

/-- Well-formedness of a control state: every stored sequence number is
at most the per-device counter.  Holds for the default state and is
preserved by every write (so it holds for every reachable state). -/
def CtrlWF (s : ModbusDeviceControlState) : Prop :=
  slotSeq s .powerLimitPct ≤ s.seq ∧
  slotSeq s .powerLimitRaw ≤ s.seq ∧
  slotSeq s .powerSetpoint ≤ s.seq

/-- Which directive slot a `(device_type, cmd)` pair writes, mirroring
the sequence-incrementing arms of `apply_hr_write_inner`. -/
def instrOfDirective (device_type : String) (cmd : HrCommandId) :
    Option ModbusPowerInstruction :=
  match device_type, cmd with
  | "static_generator", .powerLimitPct => some .powerLimitPct
  | "static_generator", .powerLimitRaw => some .powerLimitRaw
  | "storage", .setPower => some .powerSetpoint
  | "charger", .powerLimitRaw => some .powerLimitRaw
  | _, _ => none

/-- The (value, sequence) pair stored in a directive slot, with the
value coerced to `ℚ` for uniformity across the three encodings. -/
def slotStored (s : ModbusDeviceControlState) :
    ModbusPowerInstruction → Option (ℚ × Nat)
  | .powerLimitPct => s.power_limit_pct.map (fun p => ((p.1 : ℚ), p.2))
  | .powerLimitRaw => s.power_limit_raw.map (fun p => ((p.1 : ℚ), p.2))
  | .powerSetpoint => s.power_setpoint_kw

/-- The value a directive write stores: raw register value, except the
storage setpoint which is decoded as signed fixed-point. -/
def decodedValue (device_type : String) (cmd : HrCommandId) (value : Nat) : ℚ :=
  match device_type, cmd with
  | "storage", .setPower => ((toSigned16 value : Int) : ℚ) / 10
  | _, _ => (value : ℚ)

/-- The JSON key under which each directive is reported in the patch. -/
def patchKey : ModbusPowerInstruction → String
  | .powerLimitPct => "power_limit_pct"
  | .powerLimitRaw => "power_limit_raw"
  | .powerSetpoint => "p_kw"

theorem latest_fresh_pct (s : ModbusDeviceControlState) (v q : Nat)
    (h : s.power_limit_pct = some (v, q)) (h0 : 0 < q)
    (h1 : slotSeq s .powerLimitRaw < q) (h2 : slotSeq s .powerSetpoint < q) :
    latest_power_instruction s = (some .powerLimitPct, q) := by
  rcases hr : s.power_limit_raw with _ | ⟨vr, qr⟩ <;>
    rcases hs : s.power_setpoint_kw with _ | ⟨vs, qs⟩ <;>
    simp only [slotSeq, hr, hs, Option.map_some', Option.map_none',
      Option.getD_some, Option.getD_none] at h1 h2 <;>
    simp only [latest_power_instruction, h, hr, hs, gt_iff_lt] <;>
    split_ifs <;> first | rfl | omega

theorem latest_fresh_raw (s : ModbusDeviceControlState) (v q : Nat)
    (h : s.power_limit_raw = some (v, q)) (h0 : 0 < q)
    (h1 : slotSeq s .powerLimitPct < q) (h2 : slotSeq s .powerSetpoint < q) :
    latest_power_instruction s = (some .powerLimitRaw, q) := by
  rcases hp : s.power_limit_pct with _ | ⟨vp, qp⟩ <;>
    rcases hs : s.power_setpoint_kw with _ | ⟨vs, qs⟩ <;>
    simp only [slotSeq, hp, hs, Option.map_some', Option.map_none',
      Option.getD_some, Option.getD_none] at h1 h2 <;>
    simp only [latest_power_instruction, h, hp, hs, gt_iff_lt] <;>
    split_ifs <;> first | rfl | omega

theorem latest_fresh_setpoint (s : ModbusDeviceControlState) (v : ℚ) (q : Nat)
    (h : s.power_setpoint_kw = some (v, q)) (h0 : 0 < q)
    (h1 : slotSeq s .powerLimitPct < q) (h2 : slotSeq s .powerLimitRaw < q) :
    latest_power_instruction s = (some .powerSetpoint, q) := by
  rcases hp : s.power_limit_pct with _ | ⟨vp, qp⟩ <;>
    rcases hr : s.power_limit_raw with _ | ⟨vr, qr⟩ <;>
    simp only [slotSeq, hp, hr, Option.map_some', Option.map_none',
      Option.getD_some, Option.getD_none] at h1 h2 <;>
    simp only [latest_power_instruction, h, hp, hr, gt_iff_lt] <;>
    split_ifs <;> first | rfl | omega


theorem apply_sg_onoff_eq (s : ModbusDeviceControlState) (value : Nat) :
    apply_hr_write_inner s "static_generator" .onOff value =
      ({ s with on_off := some value },
       some (effective_properties { s with on_off := some value })) := rfl

theorem apply_storage_onoff_eq (s : ModbusDeviceControlState) (value : Nat) :
    apply_hr_write_inner s "storage" .onOff value =
      ({ s with on_off := some value },
       some (effective_properties { s with on_off := some value })) := rfl

theorem apply_sg_pct_eq (s : ModbusDeviceControlState) (value : Nat) :
    apply_hr_write_inner s "static_generator" .powerLimitPct value =
      ({ s with seq := s.seq + 1, power_limit_pct := some (value, s.seq + 1) },
       some (effective_properties
         { s with seq := s.seq + 1, power_limit_pct := some (value, s.seq + 1) })) := rfl

theorem apply_sg_raw_eq (s : ModbusDeviceControlState) (value : Nat) :
    apply_hr_write_inner s "static_generator" .powerLimitRaw value =
      ({ s with seq := s.seq + 1, power_limit_raw := some (value, s.seq + 1) },
       some (effective_properties
         { s with seq := s.seq + 1, power_limit_raw := some (value, s.seq + 1) })) := rfl

theorem apply_charger_raw_eq (s : ModbusDeviceControlState) (value : Nat) :
    apply_hr_write_inner s "charger" .powerLimitRaw value =
      ({ s with seq := s.seq + 1, power_limit_raw := some (value, s.seq + 1) },
       some (effective_properties
         { s with seq := s.seq + 1, power_limit_raw := some (value, s.seq + 1) })) := rfl

theorem apply_storage_setpower_eq (s : ModbusDeviceControlState) (value : Nat) :
    apply_hr_write_inner s "storage" .setPower value =
      ({ s with
          seq := s.seq + 1
          power_setpoint_kw := some (((toSigned16 value : Int) : ℚ) / 10, s.seq + 1) },
       some (effective_properties
         { s with
            seq := s.seq + 1
            power_setpoint_kw := some (((toSigned16 value : Int) : ℚ) / 10, s.seq + 1) })) := rfl

/-- **C1.** For every well-formed device control state and every
holding-register write through one of the three power-directive
commands (percent-limit, raw-limit, setpoint), the write increments the
per-device sequence counter and stores (value, counter) in its slot;
the other slots and the on/off flag are retained unchanged;
well-formedness is preserved; the freshly written slot holds the
strictly highest sequence number so `latest_power_instruction` selects
it; and the returned property patch (recomputed purely from the stored
state — no wall-clock value occurs anywhere in the data) reports
exactly that directive unless the device is forced off. -/
theorem c1_directive_write_latest_wins
    (s : ModbusDeviceControlState) (hWF : CtrlWF s)
    (device_type : String) (cmd : HrCommandId) (value : Nat)
    (i : ModbusPowerInstruction)
    (hdir : instrOfDirective device_type cmd = some i) :
    (apply_hr_write_inner s device_type cmd value).1.seq = s.seq + 1 ∧
    slotStored (apply_hr_write_inner s device_type cmd value).1 i =
      some (decodedValue device_type cmd value, s.seq + 1) ∧
    (∀ j, j ≠ i →
      slotStored (apply_hr_write_inner s device_type cmd value).1 j =
        slotStored s j) ∧
    (apply_hr_write_inner s device_type cmd value).1.on_off = s.on_off ∧
    CtrlWF (apply_hr_write_inner s device_type cmd value).1 ∧
    latest_power_instruction (apply_hr_write_inner s device_type cmd value).1 =
      (some i, s.seq + 1) ∧
    (apply_hr_write_inner s device_type cmd value).2 =
      some (effective_properties (apply_hr_write_inner s device_type cmd value).1) ∧
    (s.on_off ≠ some 0 →
      (apply_hr_write_inner s device_type cmd value).2 =
        some [("on_off", ((s.on_off.getD 1 : Nat) : ℚ)),
              (patchKey i, decodedValue device_type cmd value)]) := by
  obtain ⟨hw1, hw2, hw3⟩ := hWF
  simp only [instrOfDirective] at hdir
  split at hdir
  · -- static_generator, percent-limit
    injection hdir with hdir; subst hdir
    rw [apply_sg_pct_eq]
    have hlat : latest_power_instruction
        { s with seq := s.seq + 1, power_limit_pct := some (value, s.seq + 1) } =
        (some .powerLimitPct, s.seq + 1) := by
      apply latest_fresh_pct _ value (s.seq + 1) rfl (Nat.succ_pos _) <;>
        simp only [slotSeq] at hw1 hw2 hw3 ⊢ <;> omega
    refine ⟨rfl, rfl, ?_, rfl, ?_, hlat, rfl, ?_⟩
    · intro j hj
      cases j <;> simp_all [slotStored]
    · refine ⟨?_, ?_, ?_⟩ <;>
        simp only [slotSeq, Option.map_some', Option.getD_some]
          at hw1 hw2 hw3 ⊢ <;> omega
    · intro hoff
      simp only [effective_properties, hlat, patchKey]
      rw [if_neg hoff]
      rfl
  · -- static_generator, raw-limit
    injection hdir with hdir; subst hdir
    rw [apply_sg_raw_eq]
    have hlat : latest_power_instruction
        { s with seq := s.seq + 1, power_limit_raw := some (value, s.seq + 1) } =
        (some .powerLimitRaw, s.seq + 1) := by
      apply latest_fresh_raw _ value (s.seq + 1) rfl (Nat.succ_pos _) <;>
        simp only [slotSeq] at hw1 hw2 hw3 ⊢ <;> omega
    refine ⟨rfl, rfl, ?_, rfl, ?_, hlat, rfl, ?_⟩
    · intro j hj
      cases j <;> simp_all [slotStored]
    · refine ⟨?_, ?_, ?_⟩ <;>
        simp only [slotSeq, Option.map_some', Option.getD_some]
          at hw1 hw2 hw3 ⊢ <;> omega
    · intro hoff
      simp only [effective_properties, hlat, patchKey]
      rw [if_neg hoff]
      rfl
  · -- storage, setpoint
    injection hdir with hdir; subst hdir
    rw [apply_storage_setpower_eq]
    have hlat : latest_power_instruction
        { s with
            seq := s.seq + 1
            power_setpoint_kw := some (((toSigned16 value : Int) : ℚ) / 10, s.seq + 1) } =
        (some .powerSetpoint, s.seq + 1) := by
      apply latest_fresh_setpoint _ _ (s.seq + 1) rfl (Nat.succ_pos _) <;>
        simp only [slotSeq] at hw1 hw2 hw3 ⊢ <;> omega
    refine ⟨rfl, rfl, ?_, rfl, ?_, hlat, rfl, ?_⟩
    · intro j hj
      cases j <;> simp_all [slotStored]
    · refine ⟨?_, ?_, ?_⟩ <;>
        simp only [slotSeq, Option.map_some', Option.getD_some]
          at hw1 hw2 hw3 ⊢ <;> omega
    · intro hoff
      simp only [effective_properties, hlat, patchKey]
      rw [if_neg hoff]
      rfl
  · -- charger, raw-limit
    injection hdir with hdir; subst hdir
    rw [apply_charger_raw_eq]
    have hlat : latest_power_instruction
        { s with seq := s.seq + 1, power_limit_raw := some (value, s.seq + 1) } =
        (some .powerLimitRaw, s.seq + 1) := by
      apply latest_fresh_raw _ value (s.seq + 1) rfl (Nat.succ_pos _) <;>
        simp only [slotSeq] at hw1 hw2 hw3 ⊢ <;> omega
    refine ⟨rfl, rfl, ?_, rfl, ?_, hlat, rfl, ?_⟩
    · intro j hj
      cases j <;> simp_all [slotStored]
    · refine ⟨?_, ?_, ?_⟩ <;>
        simp only [slotSeq, Option.map_some', Option.getD_some]
          at hw1 hw2 hw3 ⊢ <;> omega
    · intro hoff
      simp only [effective_properties, hlat, patchKey]
      rw [if_neg hoff]
      rfl
  · exact Option.noConfusion hdir

/-- A sample reachable control state: one raw-limit write has happened
(sequence number 1) and the device is switched on. -/
def sampleCtrlState : ModbusDeviceControlState :=
  { on_off := some 1, power_limit_pct := none, power_limit_raw := some (5, 1),
    power_setpoint_kw := none, seq := 1 }

theorem c1_directive_write_latest_wins_witness :
    CtrlWF sampleCtrlState ∧
    instrOfDirective "static_generator" HrCommandId.powerLimitPct =
      some ModbusPowerInstruction.powerLimitPct ∧
    latest_power_instruction
      (apply_hr_write_inner sampleCtrlState "static_generator"
        .powerLimitPct 42).1 = (some .powerLimitPct, 2) ∧
    (apply_hr_write_inner sampleCtrlState "static_generator"
        .powerLimitPct 42).2 =
      some [("on_off", 1), ("power_limit_pct", 42)] := by
  have hwf : CtrlWF sampleCtrlState := ⟨by decide, by decide, by decide⟩
  have h := c1_directive_write_latest_wins sampleCtrlState hwf
    "static_generator" .powerLimitPct 42 .powerLimitPct rfl
  exact ⟨hwf, rfl, h.2.2.2.2.2.1, h.2.2.2.2.2.2.2 (by decide)⟩

theorem effective_when_off (s : ModbusDeviceControlState)
    (hoff : s.on_off = some 0) :
    effective_properties s = [("on_off", 0), ("p_kw", 0)] := by
  simp [effective_properties, hoff]

theorem effective_after_on (s : ModbusDeviceControlState)
    (i : ModbusPowerInstruction) (q : Nat) (v : ℚ)
    (hl : latest_power_instruction s = (some i, q))
    (hs : slotStored s i = some (v, q)) :
    effective_properties { s with on_off := some 1 } =
      [("on_off", 1), (patchKey i, v)] := by
  have hl' : latest_power_instruction { s with on_off := some 1 } =
      (some i, q) := hl
  simp only [effective_properties, hl']
  rw [if_neg (by simp)]
  cases i
  · rcases hp : s.power_limit_pct with _ | ⟨n, qn⟩
    · simp [slotStored, hp] at hs
    · simp only [slotStored, hp, Option.map_some', Option.some.injEq,
        Prod.mk.injEq] at hs
      simp [patchKey, hp, hs.1]
  · rcases hp : s.power_limit_raw with _ | ⟨n, qn⟩
    · simp [slotStored, hp] at hs
    · simp only [slotStored, hp, Option.map_some', Option.some.injEq,
        Prod.mk.injEq] at hs
      simp [patchKey, hp, hs.1]
  · rcases hp : s.power_setpoint_kw with _ | ⟨w, qn⟩
    · simp [slotStored, hp] at hs
    · simp only [slotStored, hp, Option.some.injEq, Prod.mk.injEq] at hs
      simp [patchKey, hp, hs.1]

/-- **C2.** For every device control state (of a device type whose
schema has an on/off command): writing on/off = 0 makes the returned
patch exactly `{on_off: 0, p_kw: 0}`; while off, any power-directive
write still returns that forced-zero patch even though the directive is
stored (dormant) under a fresh sequence number; and a subsequent
on/off = 1 write returns a patch reporting the directive with the
highest stored sequence number again. -/
theorem c2_off_forces_zero_active_power
    (s : ModbusDeviceControlState) (device_type : String)
    (hdt : device_type = "static_generator" ∨ device_type = "storage") :
    (apply_hr_write_inner s device_type .onOff 0).2 =
      some [("on_off", 0), ("p_kw", 0)] ∧
    (apply_hr_write_inner s device_type .onOff 0).1.on_off = some 0 ∧
    (∀ cmd value i, instrOfDirective device_type cmd = some i →
      s.on_off = some 0 →
      (apply_hr_write_inner s device_type cmd value).2 =
        some [("on_off", 0), ("p_kw", 0)] ∧
      slotStored (apply_hr_write_inner s device_type cmd value).1 i =
        some (decodedValue device_type cmd value, s.seq + 1)) ∧
    (∀ i q v, latest_power_instruction s = (some i, q) →
      slotStored s i = some (v, q) →
      (apply_hr_write_inner s device_type .onOff 1).2 =
        some [("on_off", 1), (patchKey i, v)]) := by
  rcases hdt with h | h <;> subst h
  · refine ⟨?_, rfl, ?_, ?_⟩
    · rw [apply_sg_onoff_eq]
      exact congrArg some (effective_when_off _ rfl)
    · intro cmd value i hcmd hoff
      cases cmd <;> try exact Option.noConfusion hcmd
      · injection hcmd with hcmd; subst hcmd
        rw [apply_sg_pct_eq]
        exact ⟨congrArg some (effective_when_off _ hoff), rfl⟩
      · injection hcmd with hcmd; subst hcmd
        rw [apply_sg_raw_eq]
        exact ⟨congrArg some (effective_when_off _ hoff), rfl⟩
    · intro i q v hl hs
      rw [apply_sg_onoff_eq]
      exact congrArg some (effective_after_on s i q v hl hs)
  · refine ⟨?_, rfl, ?_, ?_⟩
    · rw [apply_storage_onoff_eq]
      exact congrArg some (effective_when_off _ rfl)
    · intro cmd value i hcmd hoff
      cases cmd <;> try exact Option.noConfusion hcmd
      injection hcmd with hcmd; subst hcmd
      rw [apply_storage_setpower_eq]
      exact ⟨congrArg some (effective_when_off _ hoff), rfl⟩
    · intro i q v hl hs
      rw [apply_storage_onoff_eq]
      exact congrArg some (effective_after_on s i q v hl hs)

/-- A control state that is switched off with a dormant setpoint. -/
def sampleOffState : ModbusDeviceControlState :=
  { on_off := some 0, power_limit_pct := none, power_limit_raw := none,
    power_setpoint_kw := some (-300, 2), seq := 2 }

theorem c2_off_forces_zero_active_power_witness :
    ((sampleOffState.on_off = some 0) ∧
     instrOfDirective "storage" HrCommandId.setPower =
       some ModbusPowerInstruction.powerSetpoint ∧
     latest_power_instruction sampleOffState =
       (some ModbusPowerInstruction.powerSetpoint, 2) ∧
     slotStored sampleOffState .powerSetpoint = some (-300, 2)) ∧
    (apply_hr_write_inner sampleOffState "storage" .setPower 100).2 =
      some [("on_off", 0), ("p_kw", 0)] ∧
    (apply_hr_write_inner sampleOffState "storage" .onOff 1).2 =
      some [("on_off", 1), ("p_kw", -300)] := by
  have h := c2_off_forces_zero_active_power sampleOffState "storage" (Or.inr rfl)
  refine ⟨⟨rfl, rfl, by decide, by decide⟩, ?_, ?_⟩
  · exact (h.2.2.1 .setPower 100 .powerSetpoint rfl rfl).1
  · exact h.2.2.2 .powerSetpoint 2 (-300) (by decide) (by decide)

/-- **C3.** A write to a storage device's setpoint holding register
(address 4) stores the register bit pattern reinterpreted as a *signed*
16-bit integer, scaled by 0.1 kW: the stored setpoint is
`toSigned16 value × (1/10)`, which for the upper half of the register
range equals `(value − 65536)/10` (negative, i.e. discharge), not
`value/10`.  In particular writing `0xF448` (signed −3000) yields an
effective setpoint of −300.0 kW in both the state and the patch. -/
theorem c3_setpoint_signed_fixed_point
    (s : ModbusDeviceControlState) (value : Nat) (hv : value < 65536) :
    (apply_hr_write_and_effective_properties s "storage" 4 value).1.power_setpoint_kw =
      some (((toSigned16 value : Int) : ℚ) * (1/10), s.seq + 1) ∧
    (32768 ≤ value →
      ((toSigned16 value : Int) : ℚ) * (1/10) = ((value : ℚ) - 65536) * (1/10)) ∧
    (value < 32768 →
      ((toSigned16 value : Int) : ℚ) * (1/10) = (value : ℚ) * (1/10)) ∧
    (apply_hr_write_and_effective_properties
       ModbusDeviceControlState.default "storage" 4 0xF448).1.power_setpoint_kw =
      some (-300, 1) ∧
    (apply_hr_write_and_effective_properties
       ModbusDeviceControlState.default "storage" 4 0xF448).2 =
      some [("on_off", 1), ("p_kw", -300)] := by
  have hmod : value % 65536 = value := Nat.mod_eq_of_lt hv
  have hts : toSigned16 62536 = -3000 := by decide
  have hq : ((toSigned16 62536 : Int) : ℚ) / 10 = -300 := by
    rw [hts]; norm_num
  have e1 : apply_hr_write_and_effective_properties
      ModbusDeviceControlState.default "storage" 4 62536 =
      apply_hr_write_inner ModbusDeviceControlState.default "storage"
        .setPower 62536 := rfl
  refine ⟨?_, ?_, ?_, ?_, ?_⟩
  · have e2 : apply_hr_write_and_effective_properties s "storage" 4 value =
        apply_hr_write_inner s "storage" .setPower value := rfl
    rw [e2, apply_storage_setpower_eq]
    have : ((toSigned16 value : Int) : ℚ) * (1/10) =
        ((toSigned16 value : Int) : ℚ) / 10 := by ring
    rw [this]
  · intro h32
    have ht : toSigned16 value = (value : Int) - 65536 := by
      unfold toSigned16
      rw [hmod, if_neg (by omega)]
    rw [ht]
    push_cast
    ring
  · intro h32
    have ht : toSigned16 value = (value : Int) := by
      unfold toSigned16
      rw [hmod, if_pos (by omega)]
    rw [ht]
    push_cast
    ring
  · show (apply_hr_write_and_effective_properties
       ModbusDeviceControlState.default "storage" 4 62536).1.power_setpoint_kw =
      some (-300, 1)
    rw [e1, apply_storage_setpower_eq]
    simp [hq, ModbusDeviceControlState.default]
  · show (apply_hr_write_and_effective_properties
       ModbusDeviceControlState.default "storage" 4 62536).2 =
      some [("on_off", 1), ("p_kw", -300)]
    rw [e1, apply_storage_setpower_eq]
    have hlat2 : latest_power_instruction
        { on_off := none, power_limit_pct := none, power_limit_raw := none,
          power_setpoint_kw := some ((-300 : ℚ), 1), seq := 1 } =
        (some .powerSetpoint, 1) := by
      simp [latest_power_instruction]
    simp [effective_properties, ModbusDeviceControlState.default, hq, hlat2]

theorem c3_setpoint_signed_fixed_point_witness :
    (62536 < 65536) ∧
    (apply_hr_write_and_effective_properties
       sampleCtrlState "storage" 4 62536).1.power_setpoint_kw =
      some (((toSigned16 62536 : Int) : ℚ) * (1/10), 2) := by
  have h := c3_setpoint_signed_fixed_point sampleCtrlState 62536 (by decide)
  exact ⟨by decide, h.1⟩

/-! ## domain/simulation.rs — StorageState, and the per-tick storage
update from simulation_engine.rs `process_calculation_results_inline` -/

/-- `StorageState` from domain/simulation.rs (all `f64` fields as `ℚ`). -/
structure StorageState where
  capacity_kwh : ℚ
  energy_kwh : ℚ
  soc_percent : ℚ
  daily_charge_kwh : ℚ
  daily_discharge_kwh : ℚ
  total_charge_kwh : ℚ
  total_discharge_kwh : ℚ
deriving Repr

/-- Rust `f64::clamp(lo, hi)` for `lo ≤ hi` (the code only clamps with
ordered bounds). -/
def rustClamp (x lo hi : ℚ) : ℚ := max lo (min x hi)

/-- The `or_insert_with` initialiser in
`process_calculation_results_inline`: first tick of a run creates the
state from nameplate capacity and the configured initial SOC. -/
def storageStateInit (capacity_kwh initial_soc : ℚ) : StorageState :=
  { capacity_kwh := capacity_kwh
    energy_kwh := capacity_kwh * (initial_soc / 100)
    soc_percent := initial_soc
    daily_charge_kwh := 0
    daily_discharge_kwh := 0
    total_charge_kwh := 0
    total_discharge_kwh := 0 }

/-- The clamp applied when reading `properties.initial_soc`
(simulation_engine.rs line 885): `v.clamp(0.0, 100.0)`. -/
def initialSocOf (v : ℚ) : ℚ := rustClamp v 0 100

/-- The body of the storage update in
`process_calculation_results_inline` (lines 895–908): refresh capacity
when it drifted by more than 1e-6, integrate `p_kw · dt_h`, clamp
energy to `[0, capacity]`, derive SOC clamped to `[0, 100]`, accumulate
daily/lifetime charge and discharge counters. -/
def storageTickUpdate (st : StorageState) (capacity_kwh p_kw dt_h : ℚ) :
    StorageState :=
  let cap :=
    if |st.capacity_kwh - capacity_kwh| > 1/1000000 then capacity_kwh
    else st.capacity_kwh
  let energy := st.energy_kwh + p_kw * dt_h
  let energy := rustClamp energy 0 cap
  let soc := rustClamp (energy / cap * 100) 0 100
  { st with
      capacity_kwh := cap
      energy_kwh := energy
      soc_percent := soc
      daily_charge_kwh :=
        if p_kw > 0 then st.daily_charge_kwh + p_kw * dt_h
        else st.daily_charge_kwh
      total_charge_kwh :=
        if p_kw > 0 then st.total_charge_kwh + p_kw * dt_h
        else st.total_charge_kwh
      daily_discharge_kwh :=
        if p_kw > 0 then st.daily_discharge_kwh
        else if p_kw < 0 then st.daily_discharge_kwh + -p_kw * dt_h
        else st.daily_discharge_kwh
      total_discharge_kwh :=
        if p_kw > 0 then st.total_discharge_kwh
        else if p_kw < 0 then st.total_discharge_kwh + -p_kw * dt_h
        else st.total_discharge_kwh }

/-- One simulation tick for an existing storage state: the whole update
is guarded by `if capacity_kwh > 0.0` (line 887); with a non-positive
parsed capacity the state is left untouched. -/
def storageTick (st : StorageState) (capacity_kwh p_kw dt_h : ℚ) :
    StorageState :=
  if capacity_kwh > 0 then storageTickUpdate st capacity_kwh p_kw dt_h else st

/-- The bounds the claim asserts after every tick: energy within
`[0, capacity]`, SOC within `[0, 100]` (plus positivity of the stored
capacity, needed for preservation). -/
def StorageInv (st : StorageState) : Prop :=
  0 < st.capacity_kwh ∧
  0 ≤ st.energy_kwh ∧ st.energy_kwh ≤ st.capacity_kwh ∧
  0 ≤ st.soc_percent ∧ st.soc_percent ≤ 100

theorem storageTick_preserves_inv (st : StorageState)
    (cap p dt : ℚ) (h : StorageInv st) :
    StorageInv (storageTick st cap p dt) := by
  obtain ⟨hc, he0, he1, hs0, hs1⟩ := h
  unfold storageTick
  split
  · next hcap =>
    unfold storageTickUpdate rustClamp
    set cap' := if |st.capacity_kwh - cap| > 1/1000000 then cap
      else st.capacity_kwh with hcap'
    have hcpos : 0 < cap' := by
      rw [hcap']; split <;> assumption
    refine ⟨hcpos, le_max_left _ _, ?_, le_max_left _ _, ?_⟩
    · exact max_le (le_of_lt hcpos) (min_le_right _ _)
    · exact max_le (by norm_num) (min_le_right _ _)
  · exact ⟨hc, he0, he1, hs0, hs1⟩

theorem storageStateInit_inv (cap soc : ℚ) (hc : 0 < cap)
    (h0 : 0 ≤ soc) (h1 : soc ≤ 100) :
    StorageInv (storageStateInit cap soc) := by
  refine ⟨hc, ?_, ?_, h0, h1⟩
  · unfold storageStateInit
    have : (0 : ℚ) ≤ soc / 100 := by positivity
    positivity
  · show cap * (soc / 100) ≤ cap
    calc cap * (soc / 100) ≤ cap * (100 / 100) := by
          apply mul_le_mul_of_nonneg_left _ (le_of_lt hc)
          apply div_le_div_of_nonneg_right h1 (by norm_num)
      _ = cap := by norm_num

/-- **C5.** Starting from the state created on a storage device's first
tick (any positive nameplate capacity, any configured initial SOC — the
code clamps it to `[0, 100]` when parsing), after *any* sequence of
ticks — arbitrary per-tick capacity re-reads, powers and step lengths,
including ticks whose energy increment would overshoot — the stored
energy lies within `[0, capacity_kwh]` and the SOC within `[0, 100]`. -/
theorem c5_storage_energy_soc_bounded
    (cap soc0 : ℚ) (hc : 0 < cap)
    (ticks : List (ℚ × ℚ × ℚ)) :
    StorageInv
      (ticks.foldl
        (fun st t => storageTick st t.1 t.2.1 t.2.2)
        (storageStateInit cap (initialSocOf soc0))) := by
  have hsoc0 : 0 ≤ initialSocOf soc0 ∧ initialSocOf soc0 ≤ 100 := by
    unfold initialSocOf rustClamp
    constructor
    · exact le_max_left _ _
    · exact max_le (by norm_num) (min_le_right _ _)
  have hinit : StorageInv (storageStateInit cap (initialSocOf soc0)) :=
    storageStateInit_inv cap _ hc hsoc0.1 hsoc0.2
  have hfold : ∀ (ts : List (ℚ × ℚ × ℚ)) (st : StorageState), StorageInv st →
      StorageInv (ts.foldl (fun st t => storageTick st t.1 t.2.1 t.2.2) st) := by
    intro ts
    induction ts with
    | nil => exact fun st h => h
    | cons t ts ih =>
        intro st h
        exact ih _ (storageTick_preserves_inv st t.1 t.2.1 t.2.2 h)
  exact hfold ticks _ hinit

theorem c5_storage_energy_soc_bounded_witness :
    (0 : ℚ) < 100 ∧
    StorageInv
      ([((100 : ℚ), (-50 : ℚ), (1 : ℚ)), (100, 200, 1)].foldl
        (fun st t => storageTick st t.1 t.2.1 t.2.2)
        (storageStateInit 100 (initialSocOf 50))) :=
  ⟨by norm_num, c5_storage_energy_soc_bounded 100 50 (by norm_num) _⟩

/-- **C6 (counterexample).** The claim asserts that a 100 kWh storage
at 50 % SOC receiving one tick of `active_power_kw = −50` over
Δt = 3600 s ends at `soc_percent = 100`.  In the code (pandapower sign
convention, `energy += p_kw · dt_h`) negative power *discharges*: the
tick ends at `soc_percent = 0`, so the claim is false at exactly the
input it names. -/
theorem c6_clamped_soc_counterexample :
    (storageTick (storageStateInit 100 (initialSocOf 50))
       100 (-50) (3600/3600)).soc_percent = 0 ∧
    (storageTick (storageStateInit 100 (initialSocOf 50))
       100 (-50) (3600/3600)).soc_percent ≠ 100 := by
  norm_num [storageTick, storageTickUpdate, storageStateInit, initialSocOf,
    rustClamp]

/-- **C6 (amended).** Under the code's sign convention positive active
power charges the storage.  From 100 kWh capacity at 50 % SOC, one
3600 s tick at −50 kW discharges to `soc_percent = 0`; the mirrored
+50 kW tick charges to exactly 100; and an overshooting +100 kW tick
(which would reach 150 kWh = 150 %) is clamped to `energy_kwh = 100`
and `soc_percent = 100`, not 150. -/
theorem c6_clamped_soc_amended :
    (storageTick (storageStateInit 100 (initialSocOf 50))
       100 (-50) (3600/3600)).soc_percent = 0 ∧
    (storageTick (storageStateInit 100 (initialSocOf 50))
       100 50 (3600/3600)).soc_percent = 100 ∧
    (storageTick (storageStateInit 100 (initialSocOf 50))
       100 100 (3600/3600)).energy_kwh = 100 ∧
    (storageTick (storageStateInit 100 (initialSocOf 50))
       100 100 (3600/3600)).soc_percent = 100 := by
  norm_num [storageTick, storageTickUpdate, storageStateInit, initialSocOf,
    rustClamp]

/-! ## domain/simulation.rs — SimulationStatus and the elapsed-time
update in the calculation loop (simulation_engine.rs lines 483–492).
`SystemTime::now()` (Unix seconds, `u64`) becomes an explicit
`now : Nat` argument; `saturating_sub`/`saturating_add` are `Nat`
subtraction/addition. -/

/-- `SimulationState` from domain/simulation.rs. -/
inductive SimulationState
  | stopped
  | running
  | paused
deriving DecidableEq, Repr

/-- `SimulationError` from domain/simulation.rs (`details`, a free-form
JSON blob, is modelled as its serialized text; no claim inspects it). -/
structure SimulationError where
  error_type : String
  severity : String
  message : String
  device_id : Option String
  details : String
  timestamp : Nat
deriving DecidableEq, Repr

/-- `SimulationStatus` from domain/simulation.rs (`average_delay : f64`
as `ℚ`). -/
structure SimulationStatus where
  state : SimulationState
  start_time : Option Nat
  elapsed_time : Nat
  calculation_count : Nat
  average_delay : ℚ
  errors : List SimulationError
  pause_started_at : Option Nat
  total_paused_secs : Nat
deriving Repr

/-- `SimulationStatus::new`. -/
def SimulationStatus.new : SimulationStatus :=
  { state := .stopped, start_time := none, elapsed_time := 0,
    calculation_count := 0, average_delay := 0, errors := [],
    pause_started_at := none, total_paused_secs := 0 }

/-- `SimulationStatus::start` (records the current wall clock). -/
def SimulationStatus.start (s : SimulationStatus) (now : Nat) :
    SimulationStatus :=
  { s with
      state := .running
      start_time := some now
      elapsed_time := 0
      calculation_count := 0
      pause_started_at := none
      total_paused_secs := 0 }

/-- `SimulationStatus::stop`. -/
def SimulationStatus.stop (s : SimulationStatus) : SimulationStatus :=
  { s with
      state := .stopped
      start_time := none
      pause_started_at := none
      total_paused_secs := 0 }

/-- `SimulationStatus::pause` (records the pause instant). -/
def SimulationStatus.pause (s : SimulationStatus) (now : Nat) :
    SimulationStatus :=
  { s with state := .paused, pause_started_at := some now }

/-- `SimulationStatus::resume` (adds the elapsed pause delta to the
cumulative paused duration, with saturating arithmetic). -/
def SimulationStatus.resume (s : SimulationStatus) (now : Nat) :
    SimulationStatus :=
  let s := { s with state := SimulationState.running }
  match s.pause_started_at with
  | some ps =>
      { s with
          pause_started_at := none
          total_paused_secs := s.total_paused_secs + (now - ps) }
  | none => s

/-- The elapsed-time update at the end of each loop iteration
(simulation_engine.rs lines 483–492):
`elapsed_time = now − start_time − total_paused_secs` (saturating),
only when a start time is recorded. -/
def loopElapsedUpdate (s : SimulationStatus) (now : Nat) :
    SimulationStatus :=
  match s.start_time with
  | some st => { s with elapsed_time := now - st - s.total_paused_secs }
  | none => s

/-- **C7.** Start a run at `t0`, pause at `tp`, resume at `tp + p`
(a single pause of length `p`), and let the loop update the elapsed
time at `t0 + N·d` (after N ticks of duration d): the reported
`elapsed_time` is `N·d − p`, not `N·d` — the pause records the pause
instant, the resume adds the pause delta `p` to the cumulative paused
duration, and the loop reports `now − start_time − paused`. -/
theorem c7_elapsed_time_excludes_pause
    (t0 tp p N d : Nat) :
    ((((SimulationStatus.new.start t0).pause tp).resume (tp + p)).total_paused_secs
       = p) ∧
    (loopElapsedUpdate
       (((SimulationStatus.new.start t0).pause tp).resume (tp + p))
       (t0 + N * d)).elapsed_time = N * d - p := by
  constructor <;>
    simp only [SimulationStatus.new, SimulationStatus.start,
      SimulationStatus.pause, SimulationStatus.resume, loopElapsedUpdate] <;>
    omega

/-! ## simulation_engine.rs — the calculation-loop spawn guard.

`SimulationEngine::start` runs
`let should_spawn = !self.calculation_loop_started.swap(true)` and
spawns the background loop only when `should_spawn` holds and an app
handle is present (lines 184–190); the loop's cancellation branch
stores `false` back into the guard and breaks out (lines 283–290).
Because the swap is a single atomic read-modify-write on the guard and
the cancellation branch runs inside the (unique) loop task, the
interleaving-level behaviour of the pair (guard flag, number of live
loop tasks) is the following transition system. -/

/-- The spawn-guard observable state: the `calculation_loop_started`
atomic flag and the number of live background loop tasks. -/
structure EngineLoopState where
  calculation_loop_started : Bool
  live_loops : Nat
deriving DecidableEq, Repr

/-- `SimulationEngine::new`: the flag starts false and no loop runs. -/
def EngineLoopState.init : EngineLoopState :=
  { calculation_loop_started := false, live_loops := 0 }

/-- Effect of one `start()` call on the guard: the atomic swap leaves
the flag `true`; a new loop is spawned only when the flag was `false`
and an app handle was supplied. -/
def startStep (s : EngineLoopState) (hasApp : Bool) : EngineLoopState :=
  { calculation_loop_started := true
    live_loops :=
      if s.calculation_loop_started = false ∧ hasApp = true then
        s.live_loops + 1
      else s.live_loops }

/-- Effect of a loop consuming the one-shot cancellation sent by
`stop()`: the guard is re-armed (`store(false)`) and the loop breaks,
so one live loop terminates. -/
def cancelStep (s : EngineLoopState) : EngineLoopState :=
  { calculation_loop_started := false, live_loops := s.live_loops - 1 }

/-- States reachable from engine construction by any interleaving of
`start()` calls and loop cancellations (a cancellation can only be
consumed by a live loop). -/
inductive EngineReachable : EngineLoopState → Prop
  | init : EngineReachable EngineLoopState.init
  | start (s : EngineLoopState) (hasApp : Bool) :
      EngineReachable s → EngineReachable (startStep s hasApp)
  | cancel (s : EngineLoopState) :
      EngineReachable s → 0 < s.live_loops → EngineReachable (cancelStep s)

/-- **C8.** In every reachable guard state at most one background loop
is alive, and the guard flag being re-armed (false) means no loop is
alive.  Consequently a `start()` call while a loop is alive never
spawns a second loop (the live-loop count is unchanged), `start()`
always leaves the guard engaged, and only a cancellation — i.e. a
`stop()` consumed by the running loop — re-arms it. -/
theorem c8_second_start_spawns_no_loop :
    (∀ s, EngineReachable s →
      s.live_loops ≤ 1 ∧
      (s.calculation_loop_started = false → s.live_loops = 0)) ∧
    (∀ s hasApp, EngineReachable s → 0 < s.live_loops →
      (startStep s hasApp).live_loops = s.live_loops) ∧
    (∀ s hasApp, (startStep s hasApp).calculation_loop_started = true) ∧
    (∀ s, (cancelStep s).calculation_loop_started = false) := by
  have hinv : ∀ s, EngineReachable s →
      s.live_loops ≤ 1 ∧
      (s.calculation_loop_started = false → s.live_loops = 0) := by
    intro s hs
    induction hs with
    | init => exact ⟨by simp [EngineLoopState.init], fun _ => rfl⟩
    | start s hasApp _ ih =>
        unfold startStep
        constructor
        · split
          · next hcond =>
              have := ih.2 hcond.1
              show s.live_loops + 1 ≤ 1
              omega
          · exact ih.1
        · intro h
          simp at h
    | cancel s _ hpos ih =>
        have h1 := ih.1
        constructor
        · show s.live_loops - 1 ≤ 1
          omega
        · intro _
          show s.live_loops - 1 = 0
          omega
  refine ⟨hinv, ?_, fun s hasApp => rfl, fun s => rfl⟩
  intro s hasApp hs hpos
  unfold startStep
  split
  · next hcond =>
      have := (hinv s hs).2 hcond.1
      omega
  · rfl

theorem c8_second_start_spawns_no_loop_witness :
    EngineReachable { calculation_loop_started := true, live_loops := 1 } ∧
    (0 : Nat) < 1 ∧
    (startStep { calculation_loop_started := true, live_loops := 1 }
       true).live_loops = 1 := by
  have hr : EngineReachable
      { calculation_loop_started := true, live_loops := 1 } := by
    have h := EngineReachable.start EngineLoopState.init true
      EngineReachable.init
    simpa [startStep, EngineLoopState.init] using h
  exact ⟨hr, by norm_num,
    c8_second_start_spawns_no_loop.2.1 _ true hr (by norm_num)⟩

/-! ## modbus_server.rs — register context and protocol service.

`HashMap<u16, T>` banks become `Nat → Option T` (a `none` entry is an
address that was never written).  The optional write-hook closure
(`on_holding_register_write`) is modelled by a presence flag plus an
explicit trace of its invocations `(addr, value)`: every operation that
would call the hook contributes to the trace. -/

/-- Point update of a sparse register bank. -/
def mapInsert {α : Type} (m : Nat → Option α) (a : Nat) (v : α) :
    Nat → Option α :=
  fun x => if x = a then some v else m x

/-- `ModbusDeviceContext` from modbus_server.rs. -/
structure ModbusDeviceContextM where
  coils : Nat → Option Bool
  discrete_inputs : Nat → Option Bool
  input_registers : Nat → Option Nat
  holding_registers : Nat → Option Nat
  has_write_hook : Bool

/-- `ModbusDeviceContext::default()` with no hook (all banks empty). -/
def ModbusDeviceContextM.empty : ModbusDeviceContextM :=
  { coils := fun _ => none, discrete_inputs := fun _ => none,
    input_registers := fun _ => none, holding_registers := fun _ => none,
    has_write_hook := false }

/-- `get_coil`: unknown address reads return `false`. -/
def get_coil (ctx : ModbusDeviceContextM) (addr : Nat) : Bool :=
  (ctx.coils addr).getD false

/-- `get_discrete_input`: unknown address reads return `false`. -/
def get_discrete_input (ctx : ModbusDeviceContextM) (addr : Nat) : Bool :=
  (ctx.discrete_inputs addr).getD false

/-- `get_input_register`: unknown address reads return `0`. -/
def get_input_register (ctx : ModbusDeviceContextM) (addr : Nat) : Nat :=
  (ctx.input_registers addr).getD 0

/-- `get_holding_register`: unknown address reads return `0`. -/
def get_holding_register (ctx : ModbusDeviceContextM) (addr : Nat) : Nat :=
  (ctx.holding_registers addr).getD 0

/-- `set_coil`. -/
def set_coil (ctx : ModbusDeviceContextM) (addr : Nat) (value : Bool) :
    ModbusDeviceContextM :=
  { ctx with coils := mapInsert ctx.coils addr value }

/-- `set_holding_register`: stores the value and invokes the write hook
(when one is installed) with `(addr, value)` — the second component is
the trace of hook invocations. -/
def set_holding_register (ctx : ModbusDeviceContextM) (addr value : Nat) :
    ModbusDeviceContextM × List (Nat × Nat) :=
  ({ ctx with holding_registers := mapInsert ctx.holding_registers addr value },
   if ctx.has_write_hook then [(addr, value)] else [])

/-- `set_input_register` (simulation-sync write; no hook). -/
def set_input_register (ctx : ModbusDeviceContextM) (addr value : Nat) :
    ModbusDeviceContextM :=
  { ctx with input_registers := mapInsert ctx.input_registers addr value }

/-- `set_holding_register_silent` (simulation-sync write to a holding
register that deliberately does **not** invoke the write hook). -/
def set_holding_register_silent (ctx : ModbusDeviceContextM)
    (addr value : Nat) : ModbusDeviceContextM :=
  { ctx with holding_registers := mapInsert ctx.holding_registers addr value }

/-- `set_discrete_input`. -/
def set_discrete_input (ctx : ModbusDeviceContextM) (addr : Nat)
    (value : Bool) : ModbusDeviceContextM :=
  { ctx with discrete_inputs := mapInsert ctx.discrete_inputs addr value }

/-- The wire requests dispatched by `ModbusContextService::call`
(`unsupported` stands for every other function code, the `_` arm). -/
inductive ModbusRequest
  | readCoils (addr qty : Nat)
  | readDiscreteInputs (addr qty : Nat)
  | writeSingleCoil (addr : Nat) (value : Bool)
  | writeMultipleCoils (addr : Nat) (values : List Bool)
  | readInputRegisters (addr qty : Nat)
  | readHoldingRegisters (addr qty : Nat)
  | writeSingleRegister (addr value : Nat)
  | writeMultipleRegisters (addr : Nat) (values : List Nat)
  | unsupported

inductive ModbusResponse
  | readCoils (values : List Bool)
  | readDiscreteInputs (values : List Bool)
  | writeSingleCoil (addr : Nat) (value : Bool)
  | writeMultipleCoils (addr count : Nat)
  | readInputRegisters (values : List Nat)
  | readHoldingRegisters (values : List Nat)
  | writeSingleRegister (addr value : Nat)
  | writeMultipleRegisters (addr count : Nat)
deriving DecidableEq, Repr

inductive ModbusExceptionCode
  | illegalFunction
deriving DecidableEq, Repr

/-- The `WriteMultipleCoils` loop. -/
def setCoilsFrom (ctx : ModbusDeviceContextM) (addr : Nat) :
    List Bool → ModbusDeviceContextM
  | [] => ctx
  | v :: vs => setCoilsFrom (set_coil ctx addr v) (addr + 1) vs

/-- The `WriteMultipleRegisters` loop (each single write may invoke the
hook; traces are concatenated in order). -/
def setHoldingRegistersFrom (ctx : ModbusDeviceContextM) (addr : Nat) :
    List Nat → ModbusDeviceContextM × List (Nat × Nat)
  | [] => (ctx, [])
  | v :: vs =>
      let r := set_holding_register ctx addr v
      let rest := setHoldingRegistersFrom r.1 (addr + 1) vs
      (rest.1, r.2 ++ rest.2)

/-- `ModbusContextService::call`: dispatch one request against the
shared context.  Returns (context after the call, trace of hook
invocations, result).  Unsupported function codes yield
`IllegalFunction`; every read succeeds. -/
def service_call (ctx : ModbusDeviceContextM) (req : ModbusRequest) :
    ModbusDeviceContextM × List (Nat × Nat) ×
      Except ModbusExceptionCode (Option ModbusResponse) :=
  match req with
  | .readCoils addr qty =>
      (ctx, [], .ok (some (.readCoils
        ((List.range qty).map (fun i => get_coil ctx (addr + i))))))
  | .readDiscreteInputs addr qty =>
      (ctx, [], .ok (some (.readDiscreteInputs
        ((List.range qty).map (fun i => get_discrete_input ctx (addr + i))))))
  | .writeSingleCoil addr value =>
      (set_coil ctx addr value, [], .ok (some (.writeSingleCoil addr value)))
  | .writeMultipleCoils addr values =>
      (setCoilsFrom ctx addr values, [],
       .ok (some (.writeMultipleCoils addr values.length)))
  | .readInputRegisters addr qty =>
      (ctx, [], .ok (some (.readInputRegisters
        ((List.range qty).map (fun i => get_input_register ctx (addr + i))))))
  | .readHoldingRegisters addr qty =>
      (ctx, [], .ok (some (.readHoldingRegisters
        ((List.range qty).map (fun i => get_holding_register ctx (addr + i))))))
  | .writeSingleRegister addr value =>
      let r := set_holding_register ctx addr value
      (r.1, r.2, .ok (some (.writeSingleRegister addr value)))
  | .writeMultipleRegisters addr values =>
      let r := setHoldingRegistersFrom ctx addr values
      (r.1, r.2, .ok (some (.writeMultipleRegisters addr values.length)))
  | .unsupported => (ctx, [], .error .illegalFunction)

theorem range_map_const_of_unwritten {β : Type} (q : Nat) (f : Nat → β)
    (c : β) (h : ∀ i, i < q → f i = c) :
    (List.range q).map f = List.replicate q c := by
  apply List.eq_replicate_iff.2
  refine ⟨by simp, ?_⟩
  intro b hb
  rw [List.mem_map] at hb
  obtain ⟨i, hi, hfi⟩ := hb
  rw [List.mem_range] at hi
  rw [← hfi]
  exact h i hi

/-- **C9.** For every register kind and every span of addresses that
was never written, a read through the protocol service succeeds (it is
never an error or protocol exception), mutates nothing, invokes no
hook, and returns the kind's zero value at every position: `false` for
the coil and discrete-input banks, `0` for the input- and
holding-register banks. -/
theorem c9_unwritten_reads_return_zero
    (ctx : ModbusDeviceContextM) (addr qty : Nat) :
    ((∀ i, i < qty → ctx.coils (addr + i) = none) →
      service_call ctx (.readCoils addr qty) =
        (ctx, [], .ok (some (.readCoils (List.replicate qty false))))) ∧
    ((∀ i, i < qty → ctx.discrete_inputs (addr + i) = none) →
      service_call ctx (.readDiscreteInputs addr qty) =
        (ctx, [], .ok (some (.readDiscreteInputs (List.replicate qty false))))) ∧
    ((∀ i, i < qty → ctx.input_registers (addr + i) = none) →
      service_call ctx (.readInputRegisters addr qty) =
        (ctx, [], .ok (some (.readInputRegisters (List.replicate qty 0))))) ∧
    ((∀ i, i < qty → ctx.holding_registers (addr + i) = none) →
      service_call ctx (.readHoldingRegisters addr qty) =
        (ctx, [], .ok (some (.readHoldingRegisters (List.replicate qty 0))))) := by
  refine ⟨?_, ?_, ?_, ?_⟩ <;> intro h <;> simp only [service_call] <;>
    rw [range_map_const_of_unwritten qty _ _ ?_]
  · intro i hi
    simp [get_coil, h i hi]
  · intro i hi
    simp [get_discrete_input, h i hi]
  · intro i hi
    simp [get_input_register, h i hi]
  · intro i hi
    simp [get_holding_register, h i hi]

theorem c9_unwritten_reads_return_zero_witness :
    ((∀ i, i < 3 → ModbusDeviceContextM.empty.coils (10 + i) = none) ∧
     service_call ModbusDeviceContextM.empty (.readCoils 10 3) =
       (ModbusDeviceContextM.empty, [],
        .ok (some (.readCoils (List.replicate 3 false))))) ∧
    ((∀ i, i < 3 → ModbusDeviceContextM.empty.holding_registers (10 + i) = none) ∧
     service_call ModbusDeviceContextM.empty (.readHoldingRegisters 10 3) =
       (ModbusDeviceContextM.empty, [],
        .ok (some (.readHoldingRegisters (List.replicate 3 0))))) := by
  have h := c9_unwritten_reads_return_zero ModbusDeviceContextM.empty 10 3
  exact ⟨⟨fun i _ => rfl, h.1 (fun i _ => rfl)⟩,
         ⟨fun i _ => rfl, h.2.2.2 (fun i _ => rfl)⟩⟩

/-! ## modbus_server.rs — `update_context_from_simulation`.

`f64` arithmetic is `ℚ` with `f64::round` as round-half-away-from-zero
and the saturating `as` casts made explicit.  The function is threaded
through a (context, hook-invocation trace) pair so that the frame
property "simulation sync never fires the write hook" is expressible:
`set_input_register` / `set_holding_register_silent` never contribute
to the trace (they call no hook in the source). -/

/-- `f64::round`: round half away from zero. -/
def rustRound (x : ℚ) : Int := if 0 ≤ x then ⌊x + 1/2⌋ else ⌈x - 1/2⌉

/-- Saturating `as i32` cast of an (already integral) rounded `f64`. -/
def f64_as_i32 (r : Int) : Int := max (-2147483648) (min r 2147483647)

/-- Reinterpreting `i32 as u32`. -/
def i32_as_u32 (r : Int) : Nat := (r % 4294967296).toNat

/-- `v.clamp(0.0, hi) as uN` for an integral rounded value (also the
saturating `as u32` cast after `.max(0.0)`). -/
def int_clamp_to (r : Int) (hi : Nat) : Nat := (max 0 (min r (hi : Int))).toNat

/-- `clamp_i16_as_u16` from modbus_server.rs: clamp to the signed
16-bit range, then reinterpret the `i16` bit pattern as `u16`. -/
def clamp_i16_as_u16 (v : Int) : Nat :=
  let clamped := max (-32768) (min v 32767)
  (clamped % 65536).toNat

/-- Register unit constants from modbus_server.rs. -/
def METER_POWER_UNIT_KW : ℚ := 2
def POWER_UNIT_KW_DEFAULT : ℚ := 10
def METER_ENERGY_UNIT_KWH : ℚ := 1

/-- `ModbusRegisterEntry` from commands/device.rs. -/
structure ModbusRegisterEntry where
  address : Nat
  value : Nat
  type_ : String
  name : Option String
  key : Option String

/-- Address resolution for a simulation-updated input register: a
custom entry (matching bank and semantic key) wins over the schema
default address. -/
def resolveIrAddr (entries : Option (List ModbusRegisterEntry))
    (key : String) (default_addr : Nat) : Nat :=
  match entries with
  | some es =>
      match es.find? (fun r =>
          decide (r.type_ = "input_registers" ∧ r.key = some key)) with
      | some r => r.address
      | none => default_addr
  | none => default_addr

/-- A context together with the trace of write-hook invocations. -/
abbrev TracedCtx := ModbusDeviceContextM × List (Nat × Nat)

/-- Lift of `set_input_register` to a traced context (no hook). -/
def tSetIR (m : TracedCtx) (addr value : Nat) : TracedCtx :=
  (set_input_register m.1 addr value, m.2)

/-- Lift of `set_holding_register_silent` (no hook). -/
def tSetHRSilent (m : TracedCtx) (addr value : Nat) : TracedCtx :=
  (set_holding_register_silent m.1 addr value, m.2)

/-- One iteration of the input-register update loop in
`update_context_from_simulation`. -/
def irSyncStep (device_type : String)
    (entries : Option (List ModbusRegisterEntry))
    (p_reg_meter q_reg_meter p_reg_other q_reg_other : Nat)
    (m : TracedCtx) (pair : Nat × IrUpdateKey) : TracedCtx :=
  let key := ir_update_key_to_default_key pair.2
  let addr := resolveIrAddr entries key pair.1
  let value : Nat :=
    match pair.2 with
    | .activePower =>
        if device_type = "meter" then p_reg_meter else p_reg_other % 65536
    | .reactivePower =>
        if device_type = "meter" then q_reg_meter else q_reg_other % 65536
    | .activePowerLow => p_reg_other % 65536
    | .activePowerHigh => p_reg_other / 65536
    | .reactivePowerLow => q_reg_other % 65536
    | .reactivePowerHigh => q_reg_other / 65536
  tSetIR m addr value

/-- The meter four-quadrant energy integration section of
`update_context_from_simulation` (guarded by `device_type == "meter"`):
read back IR 7/8/10/11, integrate `power × Δt` for the signed quadrant,
recompute the combined total, and write IR 7–11 as clamped unsigned kWh
counters. -/
def meterEnergyStage (m : TracedCtx) (device_type : String) (p_kw : ℚ)
    (p_reactive_kvar dt_seconds : Option ℚ) : TracedCtx :=
  if device_type = "meter" then
    let dt_h := (dt_seconds.map (fun s => s / 3600)).getD 0
    let read_energy := fun (ctx : ModbusDeviceContextM) (addr : Nat) =>
      (((ctx.input_registers addr).getD 0 : ℚ)) / METER_ENERGY_UNIT_KWH
    let e_export_p := read_energy m.1 7
    let e_import_p := read_energy m.1 8
    let e_export_q := read_energy m.1 10
    let e_import_q := read_energy m.1 11
    let ep :=
      if dt_h > 0 then
        if p_kw > 0 then (e_export_p + p_kw * dt_h, e_import_p)
        else (e_export_p, e_import_p + -p_kw * dt_h)
      else (e_export_p, e_import_p)
    let eq_ :=
      if dt_h > 0 then
        match p_reactive_kvar with
        | some q =>
            if q > 0 then (e_export_q + q * dt_h, e_import_q)
            else (e_export_q, e_import_q + -q * dt_h)
        | none => (e_export_q, e_import_q)
      else (e_export_q, e_import_q)
    let e_total_p := ep.1 + ep.2
    let write_energy := fun v : ℚ =>
      int_clamp_to (rustRound (v * METER_ENERGY_UNIT_KWH)) 65535
    let m := tSetIR m 7 (write_energy ep.1)
    let m := tSetIR m 8 (write_energy ep.2)
    let m := tSetIR m 9 (write_energy e_total_p)
    let m := tSetIR m 10 (write_energy eq_.1)
    let m := tSetIR m 11 (write_energy eq_.2)
    m
  else m

/-- The storage `state_map` section of `update_context_from_simulation`
(guarded by `device_type == "storage"`): derive the operating state
from HR 55 and the power deadband, mirror it into IR 839, IR 0 and —
via the silent setter, so no write hook fires — HR 5033; then mirror
the grid mode HR 5095 into IR 432. -/
def storageStateMapStage (m : TracedCtx) (device_type : String)
    (p_kw : ℚ) : TracedCtx :=
  if device_type = "storage" then
    let reg55 := (m.1.holding_registers 55).getD 243
    let t : Nat × Nat × Nat :=
      if reg55 = 240 then (240, 1, 0)
      else if p_kw > 1/1000 then (245, 2, 2)
      else if p_kw < -(1/1000) then (245, 3, 1)
      else (243, 1, 0)
    let m := tSetIR m 839 t.1
    let m := tSetIR m 0 t.2.1
    let m := tSetHRSilent m 5033 t.2.2
    let grid_mode := (m.1.holding_registers 5095).getD 0
    let ir432 : Nat := if grid_mode = 0 then 0x0200 else 0x0400
    tSetIR m 432 ir432
  else m

/-- The storage SOC / energy-counter section of
`update_context_from_simulation` (IR 2, 12, 426–431). -/
def storageSocStage (m : TracedCtx) (device_type : String)
    (storage_state : Option StorageState) : TracedCtx :=
  if device_type = "storage" then
    match storage_state with
    | some s =>
        let soc_reg := int_clamp_to (rustRound (s.soc_percent * 10)) 1000
        let m := tSetIR m 2 soc_reg
        let remaining_kwh_x10 := int_clamp_to (rustRound (s.energy_kwh * 10)) 65535
        let m := tSetIR m 12 remaining_kwh_x10
        let daily_charge := int_clamp_to (rustRound (s.daily_charge_kwh * 10)) 65535
        let daily_discharge := int_clamp_to (rustRound (s.daily_discharge_kwh * 10)) 65535
        let m := tSetIR m 426 daily_charge
        let m := tSetIR m 427 daily_discharge
        let total_charge_x10 := int_clamp_to (rustRound (s.total_charge_kwh * 10)) 4294967295
        let m := tSetIR m 428 (total_charge_x10 % 65536)
        let m := tSetIR m 429 (total_charge_x10 / 65536)
        let total_discharge_x10 := int_clamp_to (rustRound (s.total_discharge_kwh * 10)) 4294967295
        let m := tSetIR m 430 (total_discharge_x10 % 65536)
        tSetIR m 431 (total_discharge_x10 / 65536)
    | none => m
  else m

/-- `update_context_from_simulation` from modbus_server.rs: compute the
encoded power registers, run the schema-driven input-register loop,
then the meter energy, storage state-map and storage SOC sections. -/
def update_context_from_simulation (m : TracedCtx) (device_type : String)
    (entries : Option (List ModbusRegisterEntry))
    (p_active_kw p_reactive_kvar : Option ℚ) (dt_seconds : Option ℚ)
    (storage_state : Option StorageState) : TracedCtx :=
  let p_kw := p_active_kw.getD 0
  let q_kvar := p_reactive_kvar.getD 0
  let p_reg_meter := clamp_i16_as_u16 (f64_as_i32 (rustRound (p_kw * METER_POWER_UNIT_KW)))
  let q_reg_meter := clamp_i16_as_u16 (f64_as_i32 (rustRound (q_kvar * METER_POWER_UNIT_KW)))
  let p_reg_other : Nat :=
    if device_type = "storage" then
      i32_as_u32 (f64_as_i32 (rustRound (p_kw * POWER_UNIT_KW_DEFAULT)))
    else int_clamp_to (rustRound (p_kw * POWER_UNIT_KW_DEFAULT)) 4294967295
  let q_reg_other : Nat :=
    if device_type = "storage" then
      i32_as_u32 (f64_as_i32 (rustRound (q_kvar * POWER_UNIT_KW_DEFAULT)))
    else int_clamp_to (rustRound (q_kvar * POWER_UNIT_KW_DEFAULT)) 4294967295
  let m := (input_register_updates device_type).foldl
    (irSyncStep device_type entries p_reg_meter q_reg_meter p_reg_other q_reg_other) m
  let m := meterEnergyStage m device_type p_kw p_reactive_kvar dt_seconds
  let m := storageStateMapStage m device_type p_kw
  storageSocStage m device_type storage_state
theorem tSetIR_snd (m : TracedCtx) (a v : Nat) : (tSetIR m a v).2 = m.2 := rfl

theorem tSetHRSilent_snd (m : TracedCtx) (a v : Nat) :
    (tSetHRSilent m a v).2 = m.2 := rfl

theorem foldl_irSyncStep_snd (dt : String)
    (entries : Option (List ModbusRegisterEntry)) (pm qm po qo : Nat)
    (l : List (Nat × IrUpdateKey)) (m : TracedCtx) :
    (l.foldl (irSyncStep dt entries pm qm po qo) m).2 = m.2 := by
  induction l generalizing m with
  | nil => rfl
  | cons x xs ih =>
      rw [List.foldl_cons, ih]
      rfl

theorem meterEnergyStage_snd (m : TracedCtx) (dt : String) (p : ℚ)
    (q dts : Option ℚ) : (meterEnergyStage m dt p q dts).2 = m.2 := by
  unfold meterEnergyStage
  split <;> rfl

theorem storageStateMapStage_snd (m : TracedCtx) (dt : String) (p : ℚ) :
    (storageStateMapStage m dt p).2 = m.2 := by
  unfold storageStateMapStage
  split <;> rfl

theorem storageSocStage_snd (m : TracedCtx) (dt : String)
    (ss : Option StorageState) : (storageSocStage m dt ss).2 = m.2 := by
  unfold storageSocStage
  repeat' split
  all_goals rfl

theorem update_ctx_sim_trace (m : TracedCtx) (dt : String)
    (entries : Option (List ModbusRegisterEntry))
    (p q dts : Option ℚ) (ss : Option StorageState) :
    (update_context_from_simulation m dt entries p q dts ss).2 = m.2 := by
  unfold update_context_from_simulation
  rw [storageSocStage_snd, storageStateMapStage_snd, meterEnergyStage_snd,
    foldl_irSyncStep_snd]

theorem irSyncStep_hr (dt : String)
    (entries : Option (List ModbusRegisterEntry)) (pm qm po qo : Nat)
    (m : TracedCtx) (pr : Nat × IrUpdateKey) :
    (irSyncStep dt entries pm qm po qo m pr).1.holding_registers =
      m.1.holding_registers := rfl

theorem foldl_irSyncStep_hr (dt : String)
    (entries : Option (List ModbusRegisterEntry)) (pm qm po qo : Nat)
    (l : List (Nat × IrUpdateKey)) (m : TracedCtx) :
    (l.foldl (irSyncStep dt entries pm qm po qo) m).1.holding_registers =
      m.1.holding_registers := by
  induction l generalizing m with
  | nil => rfl
  | cons x xs ih =>
      rw [List.foldl_cons, ih, irSyncStep_hr]

theorem meterEnergyStage_hr (m : TracedCtx) (dt : String) (p : ℚ)
    (q dts : Option ℚ) :
    (meterEnergyStage m dt p q dts).1.holding_registers =
      m.1.holding_registers := by
  unfold meterEnergyStage
  split <;> rfl

theorem storageSocStage_hr (m : TracedCtx) (dt : String)
    (ss : Option StorageState) :
    (storageSocStage m dt ss).1.holding_registers =
      m.1.holding_registers := by
  unfold storageSocStage
  repeat' split
  all_goals rfl

def pcsChargeDischargeCode (reg55 : Nat) (p_kw : ℚ) : Nat :=
  if reg55 = 240 then 0
  else if p_kw > 1/1000 then 2
  else if p_kw < -(1/1000) then 1
  else 0

theorem storageStateMapStage_hr5033 (m : TracedCtx) (p_kw : ℚ) :
    (storageStateMapStage m "storage" p_kw).1.holding_registers 5033 =
      some (pcsChargeDischargeCode
        ((m.1.holding_registers 55).getD 243) p_kw) := by
  unfold storageStateMapStage pcsChargeDischargeCode
  rw [if_pos rfl]
  simp only [tSetIR, tSetHRSilent, set_input_register,
    set_holding_register_silent, mapInsert]
  split_ifs <;> simp_all

/-- The hook invocations a client multi-register write produces: one
per register, in order, at consecutive addresses. -/
def writeEvents (addr : Nat) : List Nat → List (Nat × Nat)
  | [] => []
  | v :: vs => (addr, v) :: writeEvents (addr + 1) vs

theorem set_holding_register_hook (ctx : ModbusDeviceContextM)
    (a v : Nat) : (set_holding_register ctx a v).1.has_write_hook =
      ctx.has_write_hook := rfl

theorem setHoldingRegistersFrom_trace (ctx : ModbusDeviceContextM)
    (hhook : ctx.has_write_hook = true) (addr : Nat) (vs : List Nat) :
    (setHoldingRegistersFrom ctx addr vs).2 = writeEvents addr vs := by
  induction vs generalizing ctx addr with
  | nil => rfl
  | cons v vs ih =>
      show (set_holding_register ctx addr v).2 ++
          (setHoldingRegistersFrom (set_holding_register ctx addr v).1
            (addr + 1) vs).2 = (addr, v) :: writeEvents (addr + 1) vs
      rw [ih _ (by rw [set_holding_register_hook]; exact hhook)]
      simp [set_holding_register, hhook]

/-- **C10.** Simulation-driven register sync never fires the
holding-register write hook: for every device type and arguments the
hook-invocation trace of `update_context_from_simulation` is unchanged
(in particular empty when it starts empty), even though for a storage
device the charge/discharge-mode value *is* stored into holding
register 5033 (via the silent setter).  In contrast, every client
write request to a holding register on a context with an installed
hook invokes it: a single write fires `(addr, value)` and a multiple
write fires one invocation per register in order. -/
theorem c10_simulation_sync_never_fires_hook
    (m : TracedCtx) (device_type : String)
    (entries : Option (List ModbusRegisterEntry))
    (p q dts : Option ℚ) (ss : Option StorageState)
    (ctx : ModbusDeviceContextM) (addr value : Nat) (values : List Nat)
    (hhook : ctx.has_write_hook = true) :
    (update_context_from_simulation m device_type entries p q dts ss).2 =
      m.2 ∧
    (update_context_from_simulation m "storage" entries p q dts ss).1.holding_registers
        5033 =
      some (pcsChargeDischargeCode ((m.1.holding_registers 55).getD 243)
        (p.getD 0)) ∧
    (service_call ctx (.writeSingleRegister addr value)).2.1 =
      [(addr, value)] ∧
    (service_call ctx (.writeMultipleRegisters addr values)).2.1 =
      writeEvents addr values := by
  refine ⟨update_ctx_sim_trace m device_type entries p q dts ss, ?_, ?_, ?_⟩
  · unfold update_context_from_simulation
    rw [storageSocStage_hr, storageStateMapStage_hr5033,
      meterEnergyStage_hr, foldl_irSyncStep_hr]
  · show (set_holding_register ctx addr value).2 = [(addr, value)]
    simp [set_holding_register, hhook]
  · show (setHoldingRegistersFrom ctx addr values).2 = writeEvents addr values
    exact setHoldingRegistersFrom_trace ctx hhook addr values

/-- A context with the write hook installed (as `start_device_modbus`
always installs one) and HR 55 holding the "off" code 240. -/
def sampleHookCtx : ModbusDeviceContextM :=
  { coils := fun _ => none, discrete_inputs := fun _ => none,
    input_registers := fun _ => none,
    holding_registers := mapInsert (fun _ => none) 55 240,
    has_write_hook := true }

theorem c10_simulation_sync_never_fires_hook_witness :
    sampleHookCtx.has_write_hook = true ∧
    (update_context_from_simulation (sampleHookCtx, []) "storage" none
      (some 5) none (some 1) none).2 = [] ∧
    (update_context_from_simulation (sampleHookCtx, []) "storage" none
      (some 5) none (some 1) none).1.holding_registers 5033 =
      some (pcsChargeDischargeCode 240 5) ∧
    (service_call sampleHookCtx (.writeSingleRegister 4 62536)).2.1 =
      [(4, 62536)] := by
  have h := c10_simulation_sync_never_fires_hook (sampleHookCtx, [])
    "storage" none (some 5) none (some 1) none sampleHookCtx 4 62536 [] rfl
  refine ⟨rfl, h.1, ?_, h.2.2.1⟩
  have h2 := h.2.1
  simpa [sampleHookCtx, mapInsert] using h2
theorem meter_ir_loop_ir7 (m : TracedCtx) (pm qm po qo : Nat) :
    ((input_register_updates "meter").foldl
      (irSyncStep "meter" none pm qm po qo) m).1.input_registers 7 =
    m.1.input_registers 7 := rfl

theorem meterEnergyStage_reg7 (m : TracedCtx) (p : ℚ) (q dts : Option ℚ) :
    (meterEnergyStage m "meter" p q dts).1.input_registers 7 =
      some (int_clamp_to (rustRound
        (((m.1.input_registers 7).getD 0 : ℚ) +
          (if 0 < (dts.map (fun s => s / 3600)).getD 0 ∧ 0 < p then
            p * (dts.map (fun s => s / 3600)).getD 0 else 0))) 65535) := by
  unfold meterEnergyStage
  rw [if_pos rfl]
  simp only [tSetIR, set_input_register, mapInsert, METER_ENERGY_UNIT_KWH]
  norm_num
  by_cases hC : 0 < (dts.map (fun s => s / 3600)).getD 0 <;>
    by_cases hD : 0 < p
  · simp [hC, hD, not_le.mpr hD]
  · simp [hC, hD, not_lt.mp hD]
  · simp [hC, hD]
  · simp [hC, hD]

theorem meter_ir_loop_ir8 (m : TracedCtx) (pm qm po qo : Nat) :
    ((input_register_updates "meter").foldl
      (irSyncStep "meter" none pm qm po qo) m).1.input_registers 8 =
    m.1.input_registers 8 := rfl

theorem meter_ir_loop_ir10 (m : TracedCtx) (pm qm po qo : Nat) :
    ((input_register_updates "meter").foldl
      (irSyncStep "meter" none pm qm po qo) m).1.input_registers 10 =
    m.1.input_registers 10 := rfl

theorem meter_ir_loop_ir11 (m : TracedCtx) (pm qm po qo : Nat) :
    ((input_register_updates "meter").foldl
      (irSyncStep "meter" none pm qm po qo) m).1.input_registers 11 =
    m.1.input_registers 11 := rfl

theorem meterEnergyStage_reg8 (m : TracedCtx) (p : ℚ) (q dts : Option ℚ) :
    (meterEnergyStage m "meter" p q dts).1.input_registers 8 =
      some (int_clamp_to (rustRound
        (((m.1.input_registers 8).getD 0 : ℚ) +
          (if 0 < (dts.map (fun s => s / 3600)).getD 0 ∧ ¬ 0 < p then
            -p * (dts.map (fun s => s / 3600)).getD 0 else 0))) 65535) := by
  unfold meterEnergyStage
  rw [if_pos rfl]
  simp only [tSetIR, set_input_register, mapInsert, METER_ENERGY_UNIT_KWH]
  norm_num
  by_cases hC : 0 < (dts.map (fun s => s / 3600)).getD 0 <;>
    by_cases hD : 0 < p
  · simp [hC, hD, not_le.mpr hD]
  · simp [hC, hD, not_lt.mp hD]
  · simp [hC, hD]
  · simp [hC, hD]

theorem meterEnergyStage_reg9 (m : TracedCtx) (p : ℚ) (q dts : Option ℚ) :
    (meterEnergyStage m "meter" p q dts).1.input_registers 9 =
      some (int_clamp_to (rustRound
        ((((m.1.input_registers 7).getD 0 : ℚ) +
          (if 0 < (dts.map (fun s => s / 3600)).getD 0 ∧ 0 < p then
            p * (dts.map (fun s => s / 3600)).getD 0 else 0)) +
         (((m.1.input_registers 8).getD 0 : ℚ) +
          (if 0 < (dts.map (fun s => s / 3600)).getD 0 ∧ ¬ 0 < p then
            -p * (dts.map (fun s => s / 3600)).getD 0 else 0)))) 65535) := by
  unfold meterEnergyStage
  rw [if_pos rfl]
  simp only [tSetIR, set_input_register, mapInsert, METER_ENERGY_UNIT_KWH]
  norm_num
  by_cases hC : 0 < (dts.map (fun s => s / 3600)).getD 0 <;>
    by_cases hD : 0 < p
  · simp [hC, hD, not_le.mpr hD]
  · simp [hC, hD, not_lt.mp hD]
  · simp [hC, hD]
  · simp [hC, hD]

theorem meterEnergyStage_reg10 (m : TracedCtx) (p : ℚ) (q dts : Option ℚ) :
    (meterEnergyStage m "meter" p q dts).1.input_registers 10 =
      some (int_clamp_to (rustRound
        (((m.1.input_registers 10).getD 0 : ℚ) +
          (match q with
           | some qq =>
               if 0 < (dts.map (fun s => s / 3600)).getD 0 ∧ 0 < qq then
                 qq * (dts.map (fun s => s / 3600)).getD 0 else 0
           | none => 0))) 65535) := by
  unfold meterEnergyStage
  rw [if_pos rfl]
  simp only [tSetIR, set_input_register, mapInsert, METER_ENERGY_UNIT_KWH]
  norm_num
  rcases q with _ | qq
  · by_cases hC : 0 < (dts.map (fun s => s / 3600)).getD 0 <;> simp [hC]
  · by_cases hC : 0 < (dts.map (fun s => s / 3600)).getD 0 <;>
      by_cases hQ : 0 < qq
    · simp [hC, hQ, not_le.mpr hQ]
    · simp [hC, hQ, not_lt.mp hQ]
    · simp [hC, hQ]
    · simp [hC, hQ]

theorem meterEnergyStage_reg11 (m : TracedCtx) (p : ℚ) (q dts : Option ℚ) :
    (meterEnergyStage m "meter" p q dts).1.input_registers 11 =
      some (int_clamp_to (rustRound
        (((m.1.input_registers 11).getD 0 : ℚ) +
          (match q with
           | some qq =>
               if 0 < (dts.map (fun s => s / 3600)).getD 0 ∧ ¬ 0 < qq then
                 -qq * (dts.map (fun s => s / 3600)).getD 0 else 0
           | none => 0))) 65535) := by
  unfold meterEnergyStage
  rw [if_pos rfl]
  simp only [tSetIR, set_input_register, mapInsert, METER_ENERGY_UNIT_KWH]
  norm_num
  rcases q with _ | qq
  · by_cases hC : 0 < (dts.map (fun s => s / 3600)).getD 0 <;> simp [hC]
  · by_cases hC : 0 < (dts.map (fun s => s / 3600)).getD 0 <;>
      by_cases hQ : 0 < qq
    · simp [hC, hQ, not_le.mpr hQ]
    · simp [hC, hQ, not_lt.mp hQ]
    · simp [hC, hQ]
    · simp [hC, hQ]

theorem storageStateMapStage_not_storage (m : TracedCtx) (dt : String)
    (p : ℚ) (h : ¬ dt = "storage") :
    storageStateMapStage m dt p = m := by
  unfold storageStateMapStage
  rw [if_neg h]

theorem storageSocStage_not_storage (m : TracedCtx) (dt : String)
    (ss : Option StorageState) (h : ¬ dt = "storage") :
    storageSocStage m dt ss = m := by
  unfold storageSocStage
  rw [if_neg h]
theorem update_meter_reg7 (m : TracedCtx) (p : ℚ) (q dts : Option ℚ)
    (ss : Option StorageState) :
    (update_context_from_simulation m "meter" none (some p) q dts ss).1.input_registers 7 =
      some (int_clamp_to (rustRound
        (((m.1.input_registers 7).getD 0 : ℚ) +
          (if 0 < (dts.map (fun s => s / 3600)).getD 0 ∧ 0 < p then
            p * (dts.map (fun s => s / 3600)).getD 0 else 0))) 65535) := by
  unfold update_context_from_simulation
  rw [storageSocStage_not_storage _ _ _ (by decide),
    storageStateMapStage_not_storage _ _ _ (by decide),
    meterEnergyStage_reg7, meter_ir_loop_ir7]
  rfl

theorem update_meter_reg8 (m : TracedCtx) (p : ℚ) (q dts : Option ℚ)
    (ss : Option StorageState) :
    (update_context_from_simulation m "meter" none (some p) q dts ss).1.input_registers 8 =
      some (int_clamp_to (rustRound
        (((m.1.input_registers 8).getD 0 : ℚ) +
          (if 0 < (dts.map (fun s => s / 3600)).getD 0 ∧ ¬ 0 < p then
            -p * (dts.map (fun s => s / 3600)).getD 0 else 0))) 65535) := by
  unfold update_context_from_simulation
  rw [storageSocStage_not_storage _ _ _ (by decide),
    storageStateMapStage_not_storage _ _ _ (by decide),
    meterEnergyStage_reg8, meter_ir_loop_ir8]
  rfl

theorem update_meter_reg9 (m : TracedCtx) (p : ℚ) (q dts : Option ℚ)
    (ss : Option StorageState) :
    (update_context_from_simulation m "meter" none (some p) q dts ss).1.input_registers 9 =
      some (int_clamp_to (rustRound
        ((((m.1.input_registers 7).getD 0 : ℚ) +
          (if 0 < (dts.map (fun s => s / 3600)).getD 0 ∧ 0 < p then
            p * (dts.map (fun s => s / 3600)).getD 0 else 0)) +
         (((m.1.input_registers 8).getD 0 : ℚ) +
          (if 0 < (dts.map (fun s => s / 3600)).getD 0 ∧ ¬ 0 < p then
            -p * (dts.map (fun s => s / 3600)).getD 0 else 0)))) 65535) := by
  unfold update_context_from_simulation
  rw [storageSocStage_not_storage _ _ _ (by decide),
    storageStateMapStage_not_storage _ _ _ (by decide),
    meterEnergyStage_reg9, meter_ir_loop_ir7, meter_ir_loop_ir8]
  rfl

theorem update_meter_reg10 (m : TracedCtx) (p : ℚ) (q dts : Option ℚ)
    (ss : Option StorageState) :
    (update_context_from_simulation m "meter" none (some p) q dts ss).1.input_registers 10 =
      some (int_clamp_to (rustRound
        (((m.1.input_registers 10).getD 0 : ℚ) +
          (match q with
           | some qq =>
               if 0 < (dts.map (fun s => s / 3600)).getD 0 ∧ 0 < qq then
                 qq * (dts.map (fun s => s / 3600)).getD 0 else 0
           | none => 0))) 65535) := by
  unfold update_context_from_simulation
  rw [storageSocStage_not_storage _ _ _ (by decide),
    storageStateMapStage_not_storage _ _ _ (by decide),
    meterEnergyStage_reg10, meter_ir_loop_ir10]

theorem update_meter_reg11 (m : TracedCtx) (p : ℚ) (q dts : Option ℚ)
    (ss : Option StorageState) :
    (update_context_from_simulation m "meter" none (some p) q dts ss).1.input_registers 11 =
      some (int_clamp_to (rustRound
        (((m.1.input_registers 11).getD 0 : ℚ) +
          (match q with
           | some qq =>
               if 0 < (dts.map (fun s => s / 3600)).getD 0 ∧ ¬ 0 < qq then
                 -qq * (dts.map (fun s => s / 3600)).getD 0 else 0
           | none => 0))) 65535) := by
  unfold update_context_from_simulation
  rw [storageSocStage_not_storage _ _ _ (by decide),
    storageStateMapStage_not_storage _ _ _ (by decide),
    meterEnergyStage_reg11, meter_ir_loop_ir11]

/-- Modelled from the spec: "four quadrant energy counters … each
incremented every tick by `power × Δt` (trapezoidal with previous
tick's value when available)" — the trapezoidal increment averages the
previous tick's power with the current one. -/
def meterEnergySpecTrapezoid (e_prev p_prev p_cur dt_h : ℚ) : ℚ :=
  e_prev + (p_prev + p_cur) / 2 * dt_h

/-- **C4 (counterexample).** Two meter ticks, `p = 0 kW` then
`p = 2 kW`, Δt = 3600 s each, starting from an empty context: the code
writes 2 kWh into the export counter (register 7) on the second tick —
the rectangular increment `p_cur × Δt` — while the claim's trapezoidal
rule with the available previous tick's power (0 kW) would write
`(0 + 2)/2 × 1 h = 1 kWh`. -/
theorem c4_trapezoid_counterexample :
    (update_context_from_simulation
      (update_context_from_simulation (ModbusDeviceContextM.empty, [])
        "meter" none (some 0) none (some 3600) none)
      "meter" none (some 2) none (some 3600) none).1.input_registers 7 =
      some 2 ∧
    int_clamp_to (rustRound (meterEnergySpecTrapezoid 0 0 2 1)) 65535 = 1 ∧
    (2 : Nat) ≠ 1 := by
  have h1 : (update_context_from_simulation (ModbusDeviceContextM.empty, [])
      "meter" none (some 0) none (some 3600) none).1.input_registers 7 =
      some 0 := by
    rw [update_meter_reg7]
    norm_num [rustRound, int_clamp_to, ModbusDeviceContextM.empty]
  refine ⟨?_, ?_, by norm_num⟩
  · rw [update_meter_reg7, h1]
    norm_num [rustRound, int_clamp_to]
    rfl
  · norm_num [meterEnergySpecTrapezoid, rustRound, int_clamp_to]

/-- **C4 (amended).** Each meter quadrant energy counter is incremented
every tick by the *current* tick's `power × Δt` (rectangular rule — no
averaging with the previous tick's power), into the signed quadrant
selected by the power's sign, and written back as an unsigned kWh
counter clamped to the u16 range; the combined total (register 9) is
recomputed as export + import of the active quadrants rather than
integrated separately, and the reactive counters are updated only when
a reactive power value is present. -/
theorem c4_meter_energy_rectangular
    (m : TracedCtx) (p : ℚ) (q dts : Option ℚ) (ss : Option StorageState) :
    ((update_context_from_simulation m "meter" none (some p) q dts ss).1.input_registers 7 =
      some (int_clamp_to (rustRound
        (((m.1.input_registers 7).getD 0 : ℚ) +
          (if 0 < (dts.map (fun s => s / 3600)).getD 0 ∧ 0 < p then
            p * (dts.map (fun s => s / 3600)).getD 0 else 0))) 65535)) ∧
    ((update_context_from_simulation m "meter" none (some p) q dts ss).1.input_registers 8 =
      some (int_clamp_to (rustRound
        (((m.1.input_registers 8).getD 0 : ℚ) +
          (if 0 < (dts.map (fun s => s / 3600)).getD 0 ∧ ¬ 0 < p then
            -p * (dts.map (fun s => s / 3600)).getD 0 else 0))) 65535)) ∧
    ((update_context_from_simulation m "meter" none (some p) q dts ss).1.input_registers 9 =
      some (int_clamp_to (rustRound
        ((((m.1.input_registers 7).getD 0 : ℚ) +
          (if 0 < (dts.map (fun s => s / 3600)).getD 0 ∧ 0 < p then
            p * (dts.map (fun s => s / 3600)).getD 0 else 0)) +
         (((m.1.input_registers 8).getD 0 : ℚ) +
          (if 0 < (dts.map (fun s => s / 3600)).getD 0 ∧ ¬ 0 < p then
            -p * (dts.map (fun s => s / 3600)).getD 0 else 0)))) 65535)) ∧
    ((update_context_from_simulation m "meter" none (some p) q dts ss).1.input_registers 10 =
      some (int_clamp_to (rustRound
        (((m.1.input_registers 10).getD 0 : ℚ) +
          (match q with
           | some qq =>
               if 0 < (dts.map (fun s => s / 3600)).getD 0 ∧ 0 < qq then
                 qq * (dts.map (fun s => s / 3600)).getD 0 else 0
           | none => 0))) 65535)) ∧
    ((update_context_from_simulation m "meter" none (some p) q dts ss).1.input_registers 11 =
      some (int_clamp_to (rustRound
        (((m.1.input_registers 11).getD 0 : ℚ) +
          (match q with
           | some qq =>
               if 0 < (dts.map (fun s => s / 3600)).getD 0 ∧ ¬ 0 < qq then
                 -qq * (dts.map (fun s => s / 3600)).getD 0 else 0
           | none => 0))) 65535)) :=
  ⟨update_meter_reg7 m p q dts ss, update_meter_reg8 m p q dts ss,
   update_meter_reg9 m p q dts ss, update_meter_reg10 m p q dts ss,
   update_meter_reg11 m p q dts ss⟩
